import Mathlib

/-!
Verification development for the Media Monitoring Agent repository.

The definitions below are a shallow embedding of the article processing and
report generation pipeline: the AI summarization service
(services/ai_service.py), the submission endpoint (api/articles.py), and the
configuration defaults (config.py).  The article store, scraping and report
orchestration services are not present in the source tree (only their test
suites are), so those operations are modelled from the specification, as
marked on each definition.

External effects (the generative API, the clock, the email dispatcher) are
passed in as explicit oracle parameters, and the functions additionally
return traces of the externally visible events (API calls, inter-item
delays) so that statements about "no external call is made" or "a delay is
inserted between calls" are expressible.
-/

namespace MediaMonitoring

/-! ## Python string helpers -/

/-- ASCII whitespace characters as stripped by Python `str.strip()`. -/
def isPySpace (c : Char) : Bool :=
  c = ' ' || c = '\t' || c = '\n' || c = '\r' || c = '\x0b' || c = '\x0c'

/-- Python `str.strip()` restricted to ASCII whitespace. -/
def pyStrip (s : String) : String :=
  String.mk (((s.data.dropWhile isPySpace).reverse.dropWhile isPySpace).reverse)

/-- Helper for substring search: does the character list contain `needle`
as a contiguous segment? -/
def subListAux (needle : List Char) : List Char → Bool
  | [] => needle.isEmpty
  | c :: rest => needle.isPrefixOf (c :: rest) || subListAux needle rest

/-- Python `needle in hay` on strings. -/
def strContainsSub (hay needle : String) : Bool :=
  subListAux needle.data hay.data

/-- Python `sep.join(parts)`. -/
def pyJoin (sep : String) : List String → String
  | [] => ""
  | [x] => x
  | x :: y :: rest => x ++ sep ++ pyJoin sep (y :: rest)

/-- Python `str.lower()` restricted to ASCII letters (character level, so
that it evaluates inside the kernel). -/
def pyLowerChar (c : Char) : Char :=
  if 65 ≤ c.toNat ∧ c.toNat ≤ 90 then Char.ofNat (c.toNat + 32) else c

/-- Python `str.lower()` on a whole string. -/
def pyLower (s : String) : String :=
  String.mk (s.data.map pyLowerChar)

/-- Python `int(s)` for non-negative decimal strings: `some` of the value
when the string is a non-empty run of digits, otherwise `none` (the
`ValueError` case). -/
def pyParseNat (s : String) : Option Nat :=
  if s.data ≠ [] ∧ s.data.all (fun c => 48 ≤ c.toNat && c.toNat ≤ 57) then
    some (s.data.foldl (fun acc c => acc * 10 + (c.toNat - 48)) 0)
  else none

/-! ## Configuration (config.py) -/

/-- Embeds `Settings.LOCAL_MODE`: the `LOCAL_MODE` environment variable,
defaulting to `"False"`, lowercased and compared with `"true"`. -/
def Settings.LOCAL_MODE (env : Option String) : Bool :=
  pyLower (env.getD "False") = "true"

/-- Embeds `Settings.SCRAPING_MAX_RETRIES`: integer environment variable with
default 3 (also used on a parse failure). -/
def Settings.SCRAPING_MAX_RETRIES (env : Option String) : Nat :=
  (pyParseNat (env.getD "3")).getD 3

/-! ## AI service data model (services/ai_service.py) -/

/-- Embeds the `SummaryResult` dataclass. -/
structure SummaryResult where
  success : Bool
  content : Option String := none
  error : Option String := none
  tokens_used : Option Nat := none
deriving Repr, DecidableEq

/-- Outcome of one call to the external generative API
(`GeminiAPIClient._make_request`): either a response body with an output
token count, or a raised exception carrying a message. -/
inductive ApiResp where
  | ok (content : String) (outputTokens : Nat)
  | exn (message : String)
deriving Repr, DecidableEq

/-- Embeds `RateLimiter.wait_if_needed`.  Time is rational seconds; the
result is `(sleep_time, now_after, requests_after)`.  `time.sleep` is
modelled as advancing the clock by exactly the requested duration, and the
other statements as instantaneous.  `none` models the Python `IndexError`
raised when `max_requests = 0` finds `requests[0]` on an empty list. -/
def RateLimiter.waitIfNeeded (max_requests : Nat) (now : Rat) (requests : List Rat) :
    Option (Rat × Rat × List Rat) :=
  let reqs := requests.filter (fun t => decide (now - t < 60))
  if max_requests ≤ reqs.length then
    match reqs with
    | [] => none
    | oldest :: _ =>
      let sleep_time := 60 - (now - oldest) + 1
      if 0 < sleep_time then
        let now2 := now + sleep_time
        let reqs2 := reqs.filter (fun t => decide (now2 - t < 60))
        some (sleep_time, now2, reqs2 ++ [now2])
      else
        some (0, now, reqs ++ [now])
  else
    some (0, now, reqs ++ [now])

/-- The fixed `"media"` mock summary returned in LOCAL_MODE. -/
def mockSummaryMedia : String :=
  "MOCK SUMMARY: This article discusses recent developments in technology and artificial intelligence. Key points include advancements in machine learning, potential impacts on various industries, and considerations for future implementation. The content highlights both opportunities and challenges in the current technological landscape."

/-- The fixed `"hansard"` mock summary returned in LOCAL_MODE. -/
def mockSummaryHansard : String :=
  "MOCK HANSARD QUESTIONS: 1. What steps is the government taking to address technological advancement impacts? 2. How will AI developments affect employment in key sectors? 3. What regulatory frameworks are being considered for emerging technologies?"

/-- Embeds `mock_summary.get(summary_type, mock_summary["media"])`. -/
def mockSummaryGet (summary_type : String) : String :=
  if summary_type = "media" then mockSummaryMedia
  else if summary_type = "hansard" then mockSummaryHansard
  else mockSummaryMedia

/-- The system prompt texts from ai_prompts.py, treated as opaque
configuration injected into the client (the spec declares the prompt
templates out of scope). -/
structure PromptCfg where
  articleSummarySystem : String
  hansardQuestionsSystem : String
deriving Repr, DecidableEq

/-- Embeds `GeminiAPIClient._create_media_summary_prompt`: the
`article_summary` user template `"Article URL: {url}\n\nArticle Text: {content}"`
instantiated. -/
def createMediaSummaryPrompt (content article_url : String) : String :=
  "Article URL: " ++ article_url ++ "\n\nArticle Text: " ++ content

/-- Embeds `GeminiAPIClient._create_hansard_summary_prompt`. -/
def createHansardSummaryPrompt (content : String) : String :=
  "Generate relevant parliamentary questions based on this media coverage:\n\n" ++ content

/-- Embeds the exception-classification branch of `GeminiAPIClient.summarize`:
substring matching on the lowercased exception text. -/
def classifyGeminiError (e : String) : String :=
  let s := pyLower e
  if strContainsSub s "quota" || strContainsSub s "rate" then
    "Rate limit or quota exceeded"
  else if strContainsSub s "api_key" || strContainsSub s "authentication" then
    "Authentication failed - check API key"
  else if strContainsSub s "safety" || strContainsSub s "blocked" then
    "Content was blocked by safety filters"
  else if strContainsSub s "token" && strContainsSub s "limit" then
    "Content too long - exceeds token limit"
  else
    "Unexpected error: " ++ e

/-- Embeds `GeminiAPIClient.summarize`.  `localMode` is `settings.LOCAL_MODE`;
`api` is the external request (`_make_request`) as an oracle from the full
prompt to its outcome.  The second component of the result lists the prompts
actually sent to the external API. -/
def GeminiAPIClient.summarize (localMode : Bool) (cfg : PromptCfg)
    (api : String → ApiResp)
    (content : String) (summary_type : String) (article_url : String) :
    SummaryResult × List String :=
  if localMode then
    ({ success := true, content := some (mockSummaryGet summary_type),
       tokens_used := some 150 }, [])
  else if (pyStrip content).isEmpty then
    ({ success := false, error := some "Empty content provided" }, [])
  else
    let sys_user : String × String :=
      if summary_type = "media" then
        (cfg.articleSummarySystem, createMediaSummaryPrompt content article_url)
      else if summary_type = "hansard" then
        (cfg.hansardQuestionsSystem, createHansardSummaryPrompt content)
      else
        ("You are a helpful AI assistant that provides concise summaries.",
         "Please provide a concise summary of the following content:\n\n" ++ content)
    let full_prompt := sys_user.1 ++ "\n\n" ++ sys_user.2
    match api full_prompt with
    | ApiResp.ok respContent outputTokens =>
      if respContent.isEmpty then
        ({ success := false, error := some "No content in API response" }, [full_prompt])
      else
        ({ success := true, content := some respContent,
           tokens_used := some outputTokens }, [full_prompt])
    | ApiResp.exn msg =>
      ({ success := false, error := some (classifyGeminiError msg) }, [full_prompt])

/-- Embeds `AIService.summarize_content`: LOCAL_MODE mock, the empty-content
guard, truncation of over-long input with the truncation marker, then the
client call.  The second component lists the prompts sent externally. -/
def AIService.summarizeContent (localMode : Bool) (cfg : PromptCfg)
    (api : String → ApiResp)
    (content : String) (summary_type : String) (article_url : String) :
    SummaryResult × List String :=
  if localMode then
    ({ success := true, content := some (mockSummaryGet summary_type),
       tokens_used := some 150 }, [])
  else if content.isEmpty || (pyStrip content).isEmpty then
    ({ success := false, error := some "No content provided" }, [])
  else
    let max_chars : Nat := 200000
    let content2 :=
      if max_chars < content.length then
        content.take max_chars ++ "\n\n[Content truncated due to length]"
      else content
    GeminiAPIClient.summarize localMode cfg api content2 summary_type article_url

/-- Externally visible events of `AIService.batch_summarize`: processing of
item `idx` (one summarization call), and the fixed inter-item delay
(in milliseconds). -/
inductive BatchEvent where
  | item (idx : Nat)
  | pause (ms : Nat)
deriving Repr, DecidableEq

/-- The loop body of `AIService.batch_summarize`: `i` is the enumeration
index, `n` the total count; a 0.5 s pause follows every item except the
last. -/
def batchSummarizeAux (localMode : Bool) (cfg : PromptCfg) (api : String → ApiResp)
    (summary_type : String) (n : Nat) :
    Nat → List String → List SummaryResult × List BatchEvent
  | _, [] => ([], [])
  | i, content :: rest =>
    let r := AIService.summarizeContent localMode cfg api content summary_type ""
    let tail := batchSummarizeAux localMode cfg api summary_type n (i + 1) rest
    (r.1 :: tail.1,
     (BatchEvent.item i :: (if i < n - 1 then [BatchEvent.pause 500] else [])) ++ tail.2)

/-- Embeds `AIService.batch_summarize`. -/
def AIService.batchSummarize (localMode : Bool) (cfg : PromptCfg) (api : String → ApiResp)
    (contents : List String) (summary_type : String) :
    List SummaryResult × List BatchEvent :=
  if contents.isEmpty then ([], [])
  else batchSummarizeAux localMode cfg api summary_type contents.length 0 contents

/-- The loop body of `AIService.combine_summaries`: for the item with
0-based index `i` out of `n` it emits the `Summary i+1` heading, the summary
`<div>`, and `"<hr>"` when another block follows (the Python code appends an
empty string after the final block). -/
def combineSummariesAux (n : Nat) : Nat → List String → List String
  | _, [] => []
  | i, s :: rest =>
    ("<h2>Summary " ++ toString (i + 1) ++ "</h2>") ::
    ("<div>" ++ s ++ "</div>") ::
    (if i + 1 < n then "<hr>" else "") ::
    combineSummariesAux n (i + 1) rest

/-- Embeds `AIService.combine_summaries`.  `timeStr` stands for
`time.strftime("%Y-%m-%d %H:%M:%S")`, injected since the clock is an
external effect. -/
def AIService.combineSummaries (timeStr : String) (summaries : List String)
    (report_type : String) : String :=
  if summaries.isEmpty then "<p>No summaries available.</p>"
  else
    let title_intro : String × String :=
      if report_type = "media" then
        ("Media Monitoring Report",
         "This report summarizes recent media articles relevant to political monitoring.")
      else
        ("Hansard Questions Report",
         "This report contains potential parliamentary questions based on recent media coverage.")
    let html_parts :=
      ["<h1>" ++ title_intro.1 ++ "</h1>",
       "<p><em>Generated on " ++ timeStr ++ "</em></p>",
       "<p>" ++ title_intro.2 ++ "</p>",
       "<hr>"] ++ combineSummariesAux summaries.length 0 summaries
    pyJoin "\n" html_parts

/-- Specification-side rendering of one summary block, used to state the
structural contract of the combined report. -/
def blockString (k : Nat) (s : String) : String :=
  "<h2>Summary " ++ toString (k + 1) ++ "</h2>" ++ "\n" ++ "<div>" ++ s ++ "</div>"

/-- Specification-side list of summary blocks, numbered from `i`. -/
def blockStrings : Nat → List String → List String
  | _, [] => []
  | i, s :: rest => blockString i s :: blockStrings (i + 1) rest

/-! ## Article store data model

`PendingArticle` and `ProcessedArchive` live in the repository's `database`
module, which is not in the source tree; their fields are taken from
models/article.py, init_db.py and the database test suite (which also pins
the URL uniqueness constraint on the pending table).  Timestamps are modelled
as natural numbers. -/

/-- A row of the `pending_articles` table. -/
structure PendingRec where
  id : Nat
  url : String
  submitted_by : String
  timestamp : Nat
deriving Repr, DecidableEq

/-- A row of the `processed_archive` table. -/
structure ArchivedRec where
  url : String
  timestamp : Nat
  submitted_by : String
  processed_date : Nat
deriving Repr, DecidableEq

/-- The article store: the pending set and the archived set. -/
structure StoreState where
  pending : List PendingRec
  archived : List ArchivedRec
deriving Repr, DecidableEq

/-- The archived row created when a pending row is processed at `nowT`. -/
def archiveRow (nowT : Nat) (a : PendingRec) : ArchivedRec :=
  { url := a.url, timestamp := a.timestamp, submitted_by := a.submitted_by,
    processed_date := nowT }

/-! ## Submission endpoint (api/articles.py) -/

/-- The JSON body returned by the submission endpoint (success and error
shapes collapsed into one record). -/
structure SubmitResponse where
  success : Bool
  message : Option String := none
  error : Option String := none
deriving Repr, DecidableEq

/-- Embeds `submit_article` (POST /api/articles/submit) from
api/articles.py: it inserts the new pending row directly, performing no
validation and no duplicate checks, and never consults the archived set.
The pending table's URL uniqueness constraint (modelled from the database
tests) makes the commit raise `IntegrityError` when the URL is already
pending, which the endpoint's generic handler turns into a rollback and a
`success = false` response carrying the raw error string. -/
def submit_article (nowT : Nat) (newId : Nat) (st : StoreState)
    (url submitted_by : String) : SubmitResponse × StoreState :=
  if st.pending.any (fun a => a.url = url) then
    ({ success := false,
       error := some "IntegrityError: UNIQUE constraint failed: pending_articles.url" },
     st)
  else
    ({ success := true, message := some "Article submitted successfully" },
     { st with pending := st.pending ++ [⟨newId, url, submitted_by, nowT⟩] })

/-! ## Article service (spec-modelled) -/

/-- Modelled from the spec: `ArticleService.move_to_archive`
(services/article_service.py is not in the source tree; only its tests are).
Per section 4.4 of the spec it moves each pending record matching one of the
supplied ids to the archived state and deletes it from pending inside one
all-or-nothing transaction (here: a single atomic state update), silently
skips ids that do not resolve to a pending record, and returns the count
actually archived. -/
def ArticleService.moveToArchive (nowT : Nat) (st : StoreState) (ids : List Nat) :
    (Bool × String × Nat) × StoreState :=
  let matching := st.pending.filter (fun a => decide (a.id ∈ ids))
  ((true, "Successfully archived " ++ toString matching.length ++ " articles",
    matching.length),
   { pending := st.pending.filter (fun a => !decide (a.id ∈ ids)),
     archived := st.archived ++ matching.map (archiveRow nowT) })

/-! ## Scraping service (spec-modelled) -/

/-- The ephemeral extracted content (spec section 3). -/
structure ExtractedContent where
  title : String
  text : String
  authors : List String
  publish_date : Option String
deriving Repr, DecidableEq

/-- What one extraction strategy does on one attempt: structured content,
no result, or a raised network error (timeout / HTTP status). -/
inductive ExtractorOutcome where
  | found (c : ExtractedContent)
  | nothing
  | timeout
  | httpError (status : Nat)
deriving Repr, DecidableEq

/-- Modelled from the spec: `ScrapingService._extract_with_newspaper`, the
primary extraction strategy (services/scraping_service.py is not in the
source tree).  `raw` is what the underlying article parser yields; a parsed
result whose body text is shorter than 50 characters is rejected and treated
as extraction failure, per spec section 4.2 and the scraping tests. -/
def extractWithNewspaper (raw : ExtractorOutcome) : ExtractorOutcome :=
  match raw with
  | ExtractorOutcome.found c =>
    if c.text.length < 50 then ExtractorOutcome.nothing else ExtractorOutcome.found c
  | o => o

/-- Result of one run of the two-stage extraction strategy. -/
inductive AttemptResult where
  | ok (c : ExtractedContent) (usedFallback : Bool)
  | noContent
  | timeout
  | httpError (status : Nat)
deriving Repr, DecidableEq

/-- Modelled from the spec: one attempt of the two-stage strategy — the
primary extractor first, the fallback only when the primary yields no
result, first success wins. -/
def attemptExtract (primRaw fb : ExtractorOutcome) : AttemptResult :=
  match extractWithNewspaper primRaw with
  | ExtractorOutcome.found c => AttemptResult.ok c false
  | ExtractorOutcome.nothing =>
    match fb with
    | ExtractorOutcome.found c => AttemptResult.ok c true
    | ExtractorOutcome.nothing => AttemptResult.noContent
    | ExtractorOutcome.timeout => AttemptResult.timeout
    | ExtractorOutcome.httpError s => AttemptResult.httpError s
  | ExtractorOutcome.timeout => AttemptResult.timeout
  | ExtractorOutcome.httpError s => AttemptResult.httpError s

/-- Result of `scrape_article`, extended with the number of attempts made,
the number of inter-attempt delays slept, and whether the fallback
extractor supplied the content. -/
structure ScrapeResult where
  success : Bool
  title : String := ""
  text : String := ""
  error : Option String := none
  attempts : Nat
  sleeps : Nat
  usedFallback : Bool := false
deriving Repr, DecidableEq

/-- Modelled from the spec: the retry loop of `ScrapingService.scrape_article`.
`oracles i` gives the primary and fallback extractor outcomes on attempt `i`
(each attempt re-runs the two-stage strategy from scratch); `fuel` is the
number of attempts remaining out of `maxRetries`.  Timeouts and 5xx errors
are retried with a fixed delay between attempts; 4xx client errors and the
both-stages-failed case are not retried.  The `fuel = 0` base case is
unreachable when `maxRetries` is at least 1. -/
def scrapeAux (oracles : Nat → ExtractorOutcome × ExtractorOutcome)
    (maxRetries : Nat) : Nat → Nat → ScrapeResult
  | _, 0 =>
    { success := false, error := some "Request timeout - retries exhausted",
      attempts := 0, sleeps := 0 }
  | i, fuel + 1 =>
    match attemptExtract (oracles i).1 (oracles i).2 with
    | AttemptResult.ok c fb =>
      { success := true, title := c.title, text := c.text,
        attempts := 1, sleeps := 0, usedFallback := fb }
    | AttemptResult.noContent =>
      { success := false, error := some "No content could be extracted",
        attempts := 1, sleeps := 0 }
    | AttemptResult.timeout =>
      if fuel = 0 then
        { success := false,
          error := some ("Request timeout after " ++ toString maxRetries ++ " attempts"),
          attempts := 1, sleeps := 0 }
      else
        let r := scrapeAux oracles maxRetries (i + 1) fuel
        { r with attempts := r.attempts + 1, sleeps := r.sleeps + 1 }
    | AttemptResult.httpError s =>
      if 400 ≤ s ∧ s < 500 then
        { success := false, error := some ("HTTP error: " ++ toString s),
          attempts := 1, sleeps := 0 }
      else if fuel = 0 then
        { success := false,
          error := some ("HTTP error: " ++ toString s ++ " after " ++
            toString maxRetries ++ " attempts"),
          attempts := 1, sleeps := 0 }
      else
        let r := scrapeAux oracles maxRetries (i + 1) fuel
        { r with attempts := r.attempts + 1, sleeps := r.sleeps + 1 }

/-- Modelled from the spec: `ScrapingService.scrape_article`. -/
def ScrapingService.scrapeArticle (oracles : Nat → ExtractorOutcome × ExtractorOutcome)
    (maxRetries : Nat) : ScrapeResult :=
  scrapeAux oracles maxRetries 0 maxRetries

/-! ## Report service (spec-modelled) -/

/-- Outcome of one article's content extraction inside report generation. -/
inductive ScrapeOutcome where
  | ok (title text : String)
  | fail (err : String)
deriving Repr, DecidableEq

/-- Whether the extraction succeeded. -/
def ScrapeOutcome.isOk : ScrapeOutcome → Bool
  | ScrapeOutcome.ok _ _ => true
  | ScrapeOutcome.fail _ => false

/-- The extracted body text (empty on failure). -/
def ScrapeOutcome.textOf : ScrapeOutcome → String
  | ScrapeOutcome.ok _ t => t
  | ScrapeOutcome.fail _ => ""

/-- Result of a report-generation run, extended with whether the dispatcher
was actually invoked. -/
structure ReportOutcome where
  ok : Bool
  message : String
  report_id : Option String
  dispatched : Bool
deriving Repr, DecidableEq

/-- Modelled from the spec: `ReportService.generate_media_report`
(services/report_service.py is not in the source tree; only its tests are).
Per spec section 4.5: fail fast when both the pending set and the pasted
content are empty; extract every pending article and partition by success;
fail when nothing was extracted and no pasted content exists; summarize the
extracted bodies plus the pasted block; fail when every summarization
failed; dispatch the report (`send` is the dispatcher outcome); on dispatch
failure the whole run fails with "email sending failed" and no archival
occurs; on dispatch success exactly the articles whose extraction succeeded
move from pending to archived. -/
def ReportService.generateMediaReport
    (scrape : PendingRec → ScrapeOutcome)
    (summarize : String → SummaryResult)
    (send : Bool) (nowT : Nat) (pasted : String) (st : StoreState) :
    ReportOutcome × StoreState :=
  if st.pending.isEmpty && pasted.isEmpty then
    ({ ok := false, message := "no pending articles to process",
       report_id := none, dispatched := false }, st)
  else
    let succ := st.pending.filter (fun a => (scrape a).isOk)
    if succ.isEmpty && pasted.isEmpty then
      ({ ok := false, message := "no content available",
         report_id := none, dispatched := false }, st)
    else
      let contents := succ.map (fun a => (scrape a).textOf) ++
        (if pasted.isEmpty then [] else [pasted])
      let results := contents.map summarize
      if results.all (fun r => !r.success) then
        ({ ok := false, message := "all summarization attempts failed",
           report_id := none, dispatched := false }, st)
      else
        let rid := "media_report_" ++ toString nowT
        if send then
          ({ ok := true, message := "media report generated and sent successfully",
             report_id := some rid, dispatched := true },
           { pending := st.pending.filter (fun a => !(scrape a).isOk),
             archived := st.archived ++ succ.map (archiveRow nowT) })
        else
          ({ ok := false, message := "email sending failed",
             report_id := some rid, dispatched := true }, st)

/-! ## Helper lemmas -/

/-- Double counting: with duplicate-free lists on both sides, the number of
elements of `P` lying in `ids` equals the number of elements of `ids` lying
in `P`. -/
lemma length_filter_mem_comm (P ids : List Nat) (hP : P.Nodup) (hids : ids.Nodup) :
    (P.filter (fun i => decide (i ∈ ids))).length
      = (ids.filter (fun i => decide (i ∈ P))).length := by
  classical
  have h1 : (P.filter (fun i => decide (i ∈ ids))).Nodup := hP.filter _
  have h2 : (ids.filter (fun i => decide (i ∈ P))).Nodup := hids.filter _
  rw [← List.toFinset_card_of_nodup h1, ← List.toFinset_card_of_nodup h2,
    List.toFinset_filter, List.toFinset_filter]
  have e1 : P.toFinset.filter (fun a => decide (a ∈ ids))
      = P.toFinset.filter (fun a => a ∈ ids.toFinset) := by
    apply Finset.filter_congr
    intro x _
    simp
  have e2 : ids.toFinset.filter (fun a => decide (a ∈ P))
      = ids.toFinset.filter (fun a => a ∈ P.toFinset) := by
    apply Finset.filter_congr
    intro x _
    simp
  rw [e1, e2, Finset.filter_mem_eq_inter, Finset.filter_mem_eq_inter,
    Finset.inter_comm]

/-- The result list of the batch loop is the per-item summarization mapped
over the inputs, independently of the enumeration index. -/
lemma batchSummarizeAux_results (lm : Bool) (cfg : PromptCfg) (api : String → ApiResp)
    (ty : String) (n : Nat) :
    ∀ (l : List String) (i : Nat),
      (batchSummarizeAux lm cfg api ty n i l).1
        = l.map (fun c => (AIService.summarizeContent lm cfg api c ty "").1) := by
  intro l
  induction l with
  | nil => intro i; rfl
  | cons c rest ih => intro i; simp [batchSummarizeAux, ih]

/-- The event trace of the batch loop is the items in order with exactly one
pause between consecutive items and none after the last. -/
lemma batchSummarizeAux_events (lm : Bool) (cfg : PromptCfg) (api : String → ApiResp)
    (ty : String) :
    ∀ (l : List String) (i n : Nat), n = i + l.length →
      (batchSummarizeAux lm cfg api ty n i l).2
        = List.intersperse (BatchEvent.pause 500)
            ((List.range' i l.length).map BatchEvent.item) := by
  intro l
  induction l with
  | nil => intro i n _; rfl
  | cons c rest ih =>
    intro i n hn
    cases rest with
    | nil =>
      subst hn
      simp [batchSummarizeAux]
    | cons d rest2 =>
      subst hn
      have hlt : i < i + (c :: d :: rest2).length - 1 := by
        simp only [List.length_cons]
        omega
      have e1 : (batchSummarizeAux lm cfg api ty (i + (c :: d :: rest2).length) i
            (c :: d :: rest2)).2
          = BatchEvent.item i :: BatchEvent.pause 500 ::
            (batchSummarizeAux lm cfg api ty (i + (c :: d :: rest2).length) (i + 1)
              (d :: rest2)).2 := by
        simp [batchSummarizeAux, hlt]
      have e3 : List.range' (i + 1) (d :: rest2).length
          = (i + 1) :: List.range' (i + 2) rest2.length := by
        show List.range' (i + 1) (rest2.length + 1) = _
        rw [List.range'_succ]
      have e4 : List.range' i (c :: d :: rest2).length
          = i :: (i + 1) :: List.range' (i + 2) rest2.length := by
        show List.range' i (rest2.length + 1 + 1) = _
        rw [List.range'_succ, List.range'_succ]
      rw [e1, ih (i + 1) (i + (c :: d :: rest2).length)
        (by simp only [List.length_cons]; omega), e3, e4]
      simp [List.intersperse]

/-- Unfolding equation for `pyJoin` on a list with at least two elements. -/
lemma pyJoin_cons_cons (sep x y : String) (t : List String) :
    pyJoin sep (x :: y :: t) = x ++ sep ++ pyJoin sep (y :: t) := rfl

/-- Reassociation of a concatenation whose first two pieces are known to
merge into one string. -/
lemma strMerge (a b ab : String) (h : a ++ b = ab) (y : String) :
    a ++ (b ++ y) = ab ++ y := by
  rw [← h, String.append_assoc]

/-- Joining the summary blocks emitted by the `combine_summaries` loop with
newlines equals the blocks joined with a newline-hr-newline separator, plus
the trailing newline left by the loop's final empty string. -/
lemma combineSummariesAux_join :
    ∀ (l : List String) (i n : Nat), l ≠ [] → n = i + l.length →
      pyJoin "\n" (combineSummariesAux n i l)
        = pyJoin "\n<hr>\n" (blockStrings i l) ++ "\n" := by
  intro l
  induction l with
  | nil => intro i n hne _; exact absurd rfl hne
  | cons c rest ih =>
    intro i n _ hn
    cases rest with
    | nil =>
      subst hn
      have hif : ¬ (i + 1 < i + ([c] : List String).length) := by
        simp only [List.length_cons, List.length_nil]
        omega
      have e1 : combineSummariesAux (i + ([c] : List String).length) i [c]
          = [("<h2>Summary " ++ toString (i + 1) ++ "</h2>"),
             ("<div>" ++ c ++ "</div>"), ""] := by
        simp [combineSummariesAux, hif]
      rw [e1, pyJoin_cons_cons, pyJoin_cons_cons]
      simp [pyJoin, blockStrings, blockString, String.append_assoc,
        String.append_empty]
      rw [strMerge "</h2>\n" "<div>" "</h2>\n<div>" (by decide)]
    | cons d rest2 =>
      subst hn
      have hif : i + 1 < i + (c :: d :: rest2).length := by
        simp only [List.length_cons]
        omega
      have e1 : combineSummariesAux (i + (c :: d :: rest2).length) i (c :: d :: rest2)
          = ("<h2>Summary " ++ toString (i + 1) ++ "</h2>") ::
            ("<div>" ++ c ++ "</div>") :: "<hr>" ::
            combineSummariesAux (i + (c :: d :: rest2).length) (i + 1) (d :: rest2) := by
        simp [combineSummariesAux, hif]
      have e2 : combineSummariesAux (i + (c :: d :: rest2).length) (i + 1) (d :: rest2)
          = ("<h2>Summary " ++ toString (i + 1 + 1) ++ "</h2>") ::
            ("<div>" ++ d ++ "</div>") ::
            (if i + 1 + 1 < i + (c :: d :: rest2).length then "<hr>" else "") ::
            combineSummariesAux (i + (c :: d :: rest2).length) (i + 1 + 1) rest2 := by
        simp [combineSummariesAux]
      rw [e1, pyJoin_cons_cons, pyJoin_cons_cons, e2, pyJoin_cons_cons, ← e2,
        ih (i + 1) (i + (c :: d :: rest2).length) (List.cons_ne_nil d rest2)
          (by simp only [List.length_cons]; omega)]
      rw [show blockStrings i (c :: d :: rest2)
          = blockString i c :: blockString (i + 1) d :: blockStrings (i + 2) rest2 from rfl]
      rw [pyJoin_cons_cons]
      rw [show blockString (i + 1) d :: blockStrings (i + 2) rest2
          = blockStrings (i + 1) (d :: rest2) from rfl]
      generalize pyJoin "\n<hr>\n" (blockStrings (i + 1) (d :: rest2)) = X
      rw [show ("\n<hr>\n" : String) = "\n" ++ ("<hr>" ++ "\n") from by decide]
      simp [blockString, String.append_assoc]
      rw [strMerge "</h2>\n" "<div>" "</h2>\n<div>" (by decide),
        strMerge "</div>\n" "<hr>\n" "</div>\n<hr>\n" (by decide)]

/-- `pyJoin` over a cons with a non-empty tail. -/
lemma pyJoin_cons_of_ne (sep x : String) (l : List String) (h : l ≠ []) :
    pyJoin sep (x :: l) = x ++ sep ++ pyJoin sep l := by
  cases l with
  | nil => exact absurd rfl h
  | cons y tl => rfl

/-- The `combine_summaries` loop emits at least one part for a non-empty
input. -/
lemma combineSummariesAux_ne_nil (n i : Nat) (c : String) (l : List String) :
    combineSummariesAux n i (c :: l) ≠ [] := by
  simp [combineSummariesAux]

/-- If every remaining attempt raises a timeout, the retry loop consumes all
its fuel, sleeping between attempts, and fails with the timeout error. -/
lemma scrapeAux_timeout_all (oracles : Nat → ExtractorOutcome × ExtractorOutcome)
    (maxR : Nat) :
    ∀ (fuel i : Nat), 1 ≤ fuel →
      (∀ j, j < fuel → (oracles (i + j)).1 = ExtractorOutcome.timeout) →
      (scrapeAux oracles maxR i fuel).success = false ∧
      (scrapeAux oracles maxR i fuel).attempts = fuel ∧
      (scrapeAux oracles maxR i fuel).sleeps = fuel - 1 ∧
      (scrapeAux oracles maxR i fuel).error
        = some ("Request timeout after " ++ toString maxR ++ " attempts") := by
  intro fuel
  induction fuel with
  | zero => intro i h0 _; omega
  | succ f ihf =>
    intro i _ hall
    have h0 : (oracles i).1 = ExtractorOutcome.timeout := by
      have := hall 0 (by omega)
      simpa using this
    cases f with
    | zero =>
      simp [scrapeAux, attemptExtract, extractWithNewspaper, h0]
    | succ f2 =>
      have hshift : ∀ j, j < f2 + 1 → (oracles (i + 1 + j)).1 = ExtractorOutcome.timeout := by
        intro j hj
        have := hall (j + 1) (by omega)
        rw [show i + (j + 1) = i + 1 + j from by omega] at this
        exact this
      have hrec := ihf (i + 1) (by omega) hshift
      have e1 : scrapeAux oracles maxR i (f2 + 1 + 1)
          = { scrapeAux oracles maxR (i + 1) (f2 + 1) with
              attempts := (scrapeAux oracles maxR (i + 1) (f2 + 1)).attempts + 1,
              sleeps := (scrapeAux oracles maxR (i + 1) (f2 + 1)).sleeps + 1 } := by
        simp [scrapeAux, attemptExtract, extractWithNewspaper, h0]
      rw [e1]
      exact ⟨hrec.1, by simp [hrec.2.1], by simp [hrec.2.2.1], hrec.2.2.2⟩

/-- If every remaining attempt raises the same 5xx server error, the retry
loop consumes all its fuel and fails. -/
lemma scrapeAux_http5xx_all (oracles : Nat → ExtractorOutcome × ExtractorOutcome)
    (maxR s : Nat) (hs : 500 ≤ s) :
    ∀ (fuel i : Nat), 1 ≤ fuel →
      (∀ j, j < fuel → (oracles (i + j)).1 = ExtractorOutcome.httpError s) →
      (scrapeAux oracles maxR i fuel).success = false ∧
      (scrapeAux oracles maxR i fuel).attempts = fuel := by
  intro fuel
  induction fuel with
  | zero => intro i h0 _; omega
  | succ f ihf =>
    intro i _ hall
    have h0 : (oracles i).1 = ExtractorOutcome.httpError s := by
      have := hall 0 (by omega)
      simpa using this
    have hnot : ¬ (400 ≤ s ∧ s < 500) := by omega
    cases f with
    | zero =>
      simp [scrapeAux, attemptExtract, extractWithNewspaper, h0, hnot]
    | succ f2 =>
      have hshift : ∀ j, j < f2 + 1 →
          (oracles (i + 1 + j)).1 = ExtractorOutcome.httpError s := by
        intro j hj
        have := hall (j + 1) (by omega)
        rw [show i + (j + 1) = i + 1 + j from by omega] at this
        exact this
      have hrec := ihf (i + 1) (by omega) hshift
      have e1 : scrapeAux oracles maxR i (f2 + 1 + 1)
          = { scrapeAux oracles maxR (i + 1) (f2 + 1) with
              attempts := (scrapeAux oracles maxR (i + 1) (f2 + 1)).attempts + 1,
              sleeps := (scrapeAux oracles maxR (i + 1) (f2 + 1)).sleeps + 1 } := by
        simp [scrapeAux, attemptExtract, extractWithNewspaper, h0, hnot]
      rw [e1]
      exact ⟨hrec.1, by simp [hrec.2]⟩

/-! ## Claims -/

/-- Claim C1: for every invocation of `generate_media_report` in which the
report dispatcher was invoked and returned failure, the whole operation
fails with the message "email sending failed" and no archival occurs — the
pending and archived sets are exactly the same after the call as before. -/
theorem claim_C1_dispatch_failure_no_archival
    (scrape : PendingRec → ScrapeOutcome) (summarize : String → SummaryResult)
    (nowT : Nat) (pasted : String) (st : StoreState)
    (hd : (ReportService.generateMediaReport scrape summarize false nowT pasted st).1.dispatched
          = true) :
    (ReportService.generateMediaReport scrape summarize false nowT pasted st).1.ok = false ∧
    (ReportService.generateMediaReport scrape summarize false nowT pasted st).1.message
      = "email sending failed" ∧
    (ReportService.generateMediaReport scrape summarize false nowT pasted st).2 = st := by
  simp only [ReportService.generateMediaReport] at hd ⊢
  split_ifs at hd ⊢ <;> simp_all

/-- Witness for C1: a concrete run with one pending article, successful
extraction and summarization, and a failing dispatcher reaches dispatch and
leaves the store untouched. -/
theorem claim_C1_dispatch_failure_no_archival_witness :
    (ReportService.generateMediaReport
        (fun _ => ScrapeOutcome.ok "T" "body") (fun _ => { success := true })
        false 7 "" { pending := [⟨1, "https://example.com/a", "Alice", 3⟩], archived := [] }).1.ok
      = false ∧
    (ReportService.generateMediaReport
        (fun _ => ScrapeOutcome.ok "T" "body") (fun _ => { success := true })
        false 7 "" { pending := [⟨1, "https://example.com/a", "Alice", 3⟩], archived := [] }).1.message
      = "email sending failed" ∧
    (ReportService.generateMediaReport
        (fun _ => ScrapeOutcome.ok "T" "body") (fun _ => { success := true })
        false 7 "" { pending := [⟨1, "https://example.com/a", "Alice", 3⟩], archived := [] }).2
      = { pending := [⟨1, "https://example.com/a", "Alice", 3⟩], archived := [] } :=
  claim_C1_dispatch_failure_no_archival
    (fun _ => ScrapeOutcome.ok "T" "body") (fun _ => { success := true })
    7 "" { pending := [⟨1, "https://example.com/a", "Alice", 3⟩], archived := [] } rfl

/-- Claim C2: after a successful `generate_media_report`, exactly the
pending articles whose extraction succeeded have moved from pending to
archived, and every pending article whose extraction failed is still
pending. -/
theorem claim_C2_success_archives_extracted
    (scrape : PendingRec → ScrapeOutcome) (summarize : String → SummaryResult)
    (send : Bool) (nowT : Nat) (pasted : String) (st : StoreState)
    (hok : (ReportService.generateMediaReport scrape summarize send nowT pasted st).1.ok
           = true) :
    (ReportService.generateMediaReport scrape summarize send nowT pasted st).2
      = { pending := st.pending.filter (fun a => !(scrape a).isOk),
          archived := st.archived ++
            (st.pending.filter (fun a => (scrape a).isOk)).map (archiveRow nowT) } ∧
    (∀ a ∈ st.pending, (scrape a).isOk = false →
      a ∈ (ReportService.generateMediaReport scrape summarize send nowT pasted st).2.pending) ∧
    (∀ a ∈ st.pending, (scrape a).isOk = true →
      archiveRow nowT a ∈
        (ReportService.generateMediaReport scrape summarize send nowT pasted st).2.archived) := by
  have hstate : (ReportService.generateMediaReport scrape summarize send nowT pasted st).2
      = { pending := st.pending.filter (fun a => !(scrape a).isOk),
          archived := st.archived ++
            (st.pending.filter (fun a => (scrape a).isOk)).map (archiveRow nowT) } := by
    simp only [ReportService.generateMediaReport] at hok ⊢
    split_ifs at hok ⊢ <;> simp_all
  refine ⟨hstate, fun a ha hfail => ?_, fun a ha hsucc => ?_⟩
  · rw [hstate]
    simp [List.mem_filter, ha, hfail]
  · rw [hstate]
    simp only [List.mem_append, List.mem_map, List.mem_filter]
    exact Or.inr ⟨a, ⟨ha, hsucc⟩, rfl⟩

/-- Witness for C2: a concrete successful run with one article extracting
successfully and one failing moves exactly the first to the archive. -/
theorem claim_C2_success_archives_extracted_witness :
    (ReportService.generateMediaReport
        (fun a => if a.id = 1 then ScrapeOutcome.ok "T" "body" else ScrapeOutcome.fail "boom")
        (fun _ => { success := true }) true 9 ""
        { pending := [⟨1, "https://example.com/a", "Alice", 3⟩,
                      ⟨2, "https://example.com/b", "Bob", 4⟩], archived := [] }).2
      = { pending := [⟨2, "https://example.com/b", "Bob", 4⟩],
          archived := [⟨"https://example.com/a", 3, "Alice", 9⟩] } := by
  have h := claim_C2_success_archives_extracted
    (fun a => if a.id = 1 then ScrapeOutcome.ok "T" "body" else ScrapeOutcome.fail "boom")
    (fun _ => { success := true }) true 9 ""
    { pending := [⟨1, "https://example.com/a", "Alice", 3⟩,
                  ⟨2, "https://example.com/b", "Bob", 4⟩], archived := [] } rfl
  rw [h.1]
  decide

/-- Claim C3 evidence: the submission endpoint accepts a URL that is already
in the archived set — it returns success, inserts a pending row, and leaves
the URL present in both the pending and the archived set simultaneously,
with no duplicate classification. -/
theorem claim_C3_submit_ignores_archive :
    (submit_article 2 1
        { pending := [],
          archived := [⟨"https://example.com/processed", 0, "Alice", 1⟩] }
        "https://example.com/processed" "Bob").1.success = true ∧
    ((submit_article 2 1
        { pending := [],
          archived := [⟨"https://example.com/processed", 0, "Alice", 1⟩] }
        "https://example.com/processed" "Bob").2.pending.any
          (fun a => a.url = "https://example.com/processed")) = true ∧
    ((submit_article 2 1
        { pending := [],
          archived := [⟨"https://example.com/processed", 0, "Alice", 1⟩] }
        "https://example.com/processed" "Bob").2.archived.any
          (fun a => a.url = "https://example.com/processed")) = true := by
  refine ⟨rfl, ?_, ?_⟩ <;> decide

/-- Claim C7: `move_to_archive` always reports success; its archived count
equals the number of supplied ids resolving to a pending record; the empty
list is a no-op; and exactly the matching pending rows are moved to the
archive and deleted from pending in one state update. -/
theorem claim_C7_move_to_archive
    (nowT : Nat) (st : StoreState) (ids : List Nat)
    (hids : ids.Nodup) (hpend : (st.pending.map PendingRec.id).Nodup) :
    (ArticleService.moveToArchive nowT st ids).1.1 = true ∧
    (ArticleService.moveToArchive nowT st ids).1.2.2
      = (ids.filter (fun i => decide (i ∈ st.pending.map PendingRec.id))).length ∧
    (ids = [] → (ArticleService.moveToArchive nowT st ids).1.2.2 = 0 ∧
      (ArticleService.moveToArchive nowT st ids).2 = st) ∧
    (ArticleService.moveToArchive nowT st ids).2.pending
      = st.pending.filter (fun a => !decide (a.id ∈ ids)) ∧
    (ArticleService.moveToArchive nowT st ids).2.archived
      = st.archived ++
          (st.pending.filter (fun a => decide (a.id ∈ ids))).map (archiveRow nowT) := by
  refine ⟨rfl, ?_, ?_, rfl, rfl⟩
  · show (st.pending.filter (fun a => decide (a.id ∈ ids))).length = _
    have hcomm := length_filter_mem_comm (st.pending.map PendingRec.id) ids hpend hids
    rw [← hcomm, List.filter_map, List.length_map]
    rfl
  · rintro rfl
    constructor
    · show (st.pending.filter (fun a => decide (a.id ∈ ([] : List Nat)))).length = 0
      simp
    · show ({ pending := _, archived := _ } : StoreState) = st
      cases st with
      | mk pending archived => simp [ArticleService.moveToArchive]

/-- Witness for C7: archiving one resolvable and one unknown id archives
exactly the one matching pending row. -/
theorem claim_C7_move_to_archive_witness :
    (ArticleService.moveToArchive 5
        { pending := [⟨1, "https://example.com/mixed", "User 1", 2⟩], archived := [] }
        [1, 999]).1.1 = true ∧
    (ArticleService.moveToArchive 5
        { pending := [⟨1, "https://example.com/mixed", "User 1", 2⟩], archived := [] }
        [1, 999]).1.2.2 = 1 := by
  have h := claim_C7_move_to_archive 5
    { pending := [⟨1, "https://example.com/mixed", "User 1", 2⟩], archived := [] }
    [1, 999] (by decide) (by decide)
  exact ⟨h.1, by rw [h.2.1]; decide⟩

/-- Claim C6: with LOCAL_MODE off, `summarize_content` rejects empty or
whitespace-only content immediately with the empty-content error, and no
external API call is made for that input. -/
theorem claim_C6_empty_content_rejected
    (cfg : PromptCfg) (api : String → ApiResp)
    (summary_type article_url content : String)
    (hblank : (pyStrip content).isEmpty = true) :
    AIService.summarizeContent false cfg api content summary_type article_url
      = ({ success := false, error := some "No content provided" }, []) := by
  unfold AIService.summarizeContent
  simp [hblank]

/-- Witness for C6: whitespace-only input is rejected with no API call. -/
theorem claim_C6_empty_content_rejected_witness :
    ((pyStrip "  \t ").isEmpty = true) ∧
    AIService.summarizeContent false ⟨"sysA", "sysH"⟩ (fun _ => ApiResp.ok "S" 1)
        "  \t " "media" ""
      = ({ success := false, error := some "No content provided" }, []) :=
  ⟨by decide,
   claim_C6_empty_content_rejected ⟨"sysA", "sysH"⟩ (fun _ => ApiResp.ok "S" 1)
     "media" "" "  \t " (by decide)⟩

/-- Claim C10: when the LOCAL_MODE configuration flag is enabled,
`summarize_content` and the underlying client `summarize` return success
with the fixed mock summary for the summary type and 150 tokens used, for
every input — including empty or whitespace-only content — and make no
external API call, bypassing both the empty-content rejection and the
truncation step. -/
theorem claim_C10_local_mode_mock
    (env : Option String) (cfg : PromptCfg) (api : String → ApiResp)
    (summary_type article_url content : String)
    (henv : Settings.LOCAL_MODE env = true) :
    AIService.summarizeContent (Settings.LOCAL_MODE env) cfg api content summary_type article_url
      = ({ success := true, content := some (mockSummaryGet summary_type),
           tokens_used := some 150 }, []) ∧
    GeminiAPIClient.summarize (Settings.LOCAL_MODE env) cfg api content summary_type article_url
      = ({ success := true, content := some (mockSummaryGet summary_type),
           tokens_used := some 150 }, []) := by
  rw [henv]
  exact ⟨rfl, rfl⟩

/-- Witness for C10: with `LOCAL_MODE=true` in the environment, even the
empty string is summarized to the mock media summary with 150 tokens and no
API call. -/
theorem claim_C10_local_mode_mock_witness :
    Settings.LOCAL_MODE (some "true") = true ∧
    AIService.summarizeContent (Settings.LOCAL_MODE (some "true"))
        ⟨"sysA", "sysH"⟩ (fun _ => ApiResp.exn "network down") "" "media" ""
      = ({ success := true, content := some mockSummaryMedia,
           tokens_used := some 150 }, []) :=
  ⟨by decide,
   (claim_C10_local_mode_mock (some "true") ⟨"sysA", "sysH"⟩
     (fun _ => ApiResp.exn "network down") "media" "" "" (by decide)).1⟩

/-- Claim C4: `batch_summarize` returns one result per input, in input
order, each equal to the single-item summarization of that input — so a
failure of any item neither aborts nor drops nor reorders the others — with
the fixed 0.5 s delay between consecutive item calls and none after the
last; concretely, a good/bad/good input triple yields success, failure,
success in order. -/
theorem claim_C4_batch_one_to_one_in_order
    (lm : Bool) (cfg : PromptCfg) (api : String → ApiResp) (ty : String)
    (contents : List String) :
    (AIService.batchSummarize lm cfg api contents ty).1
      = contents.map (fun c => (AIService.summarizeContent lm cfg api c ty "").1) ∧
    (AIService.batchSummarize lm cfg api contents ty).2
      = List.intersperse (BatchEvent.pause 500)
          ((List.range contents.length).map BatchEvent.item) ∧
    ((AIService.batchSummarize false ⟨"S", "H"⟩
        (fun p => if strContainsSub p "BAD" then ApiResp.exn "boom"
                  else ApiResp.ok "OK summary" 7)
        ["Alpha article text", "This is a BAD article", "Gamma article text"]
        "media").1.map (fun r => r.success)) = [true, false, true] := by
  refine ⟨?_, ?_, by decide⟩
  · cases contents with
    | nil => rfl
    | cons c rest =>
      simp only [AIService.batchSummarize, List.isEmpty_cons, Bool.false_eq_true,
        if_false]
      exact batchSummarizeAux_results lm cfg api ty (c :: rest).length (c :: rest) 0
  · cases contents with
    | nil => rfl
    | cons c rest =>
      simp only [AIService.batchSummarize, List.isEmpty_cons, Bool.false_eq_true,
        if_false]
      rw [batchSummarizeAux_events lm cfg api ty (c :: rest) 0 (c :: rest).length
        (by simp), List.range_eq_range']

/-- Claim C8: report HTML assembly renders the empty list as exactly the
literal no-summaries paragraph; a non-empty list renders the per-type `<h1>`
title, the generation-timestamp line, the intro line, an `<hr>`, and then
the `Summary i` heading plus `<div>` block for each summary in input order,
joined by `<hr>` separators — so every block is followed by `<hr>` except
the last, which is followed only by the loop's trailing newline. -/
theorem claim_C8_report_html_structure (t s : String) (rest : List String) (rt : String) :
    AIService.combineSummaries t [] rt = "<p>No summaries available.</p>" ∧
    AIService.combineSummaries t (s :: rest) "media"
      = "<h1>Media Monitoring Report</h1>" ++ "\n" ++
        "<p><em>Generated on " ++ t ++ "</em></p>" ++ "\n" ++
        "<p>This report summarizes recent media articles relevant to political monitoring.</p>" ++
        "\n" ++ "<hr>" ++ "\n" ++
        pyJoin "\n<hr>\n" (blockStrings 0 (s :: rest)) ++ "\n" ∧
    AIService.combineSummaries t (s :: rest) "hansard"
      = "<h1>Hansard Questions Report</h1>" ++ "\n" ++
        "<p><em>Generated on " ++ t ++ "</em></p>" ++ "\n" ++
        "<p>This report contains potential parliamentary questions based on recent media coverage.</p>" ++
        "\n" ++ "<hr>" ++ "\n" ++
        pyJoin "\n<hr>\n" (blockStrings 0 (s :: rest)) ++ "\n" := by
  have hne := combineSummariesAux_ne_nil (s :: rest).length 0 s rest
  have hjoin := combineSummariesAux_join (s :: rest) 0 (s :: rest).length
    (List.cons_ne_nil s rest) (by simp)
  refine ⟨rfl, ?_, ?_⟩
  · rw [show AIService.combineSummaries t (s :: rest) "media"
        = pyJoin "\n" ("<h1>Media Monitoring Report</h1>" ::
            ("<p><em>Generated on " ++ t ++ "</em></p>") ::
            "<p>This report summarizes recent media articles relevant to political monitoring.</p>" ::
            "<hr>" :: combineSummariesAux (s :: rest).length 0 (s :: rest)) from rfl]
    rw [pyJoin_cons_cons, pyJoin_cons_cons, pyJoin_cons_cons,
      pyJoin_cons_of_ne "\n" "<hr>" _ hne, hjoin]
    simp [String.append_assoc]
    rw [strMerge "<h1>Media Monitoring Report</h1>\n" "<p><em>Generated on "
        "<h1>Media Monitoring Report</h1>\n<p><em>Generated on " (by decide),
      strMerge "</em></p>\n"
        "<p>This report summarizes recent media articles relevant to political monitoring.</p>\n"
        "</em></p>\n<p>This report summarizes recent media articles relevant to political monitoring.</p>\n"
        (by decide),
      strMerge
        "</em></p>\n<p>This report summarizes recent media articles relevant to political monitoring.</p>\n"
        "<hr>\n"
        "</em></p>\n<p>This report summarizes recent media articles relevant to political monitoring.</p>\n<hr>\n"
        (by decide)]
  · rw [show AIService.combineSummaries t (s :: rest) "hansard"
        = pyJoin "\n" ("<h1>Hansard Questions Report</h1>" ::
            ("<p><em>Generated on " ++ t ++ "</em></p>") ::
            "<p>This report contains potential parliamentary questions based on recent media coverage.</p>" ::
            "<hr>" :: combineSummariesAux (s :: rest).length 0 (s :: rest)) from rfl]
    rw [pyJoin_cons_cons, pyJoin_cons_cons, pyJoin_cons_cons,
      pyJoin_cons_of_ne "\n" "<hr>" _ hne, hjoin]
    simp [String.append_assoc]
    rw [strMerge "<h1>Hansard Questions Report</h1>\n" "<p><em>Generated on "
        "<h1>Hansard Questions Report</h1>\n<p><em>Generated on " (by decide),
      strMerge "</em></p>\n"
        "<p>This report contains potential parliamentary questions based on recent media coverage.</p>\n"
        "</em></p>\n<p>This report contains potential parliamentary questions based on recent media coverage.</p>\n"
        (by decide),
      strMerge
        "</em></p>\n<p>This report contains potential parliamentary questions based on recent media coverage.</p>\n"
        "<hr>\n"
        "</em></p>\n<p>This report contains potential parliamentary questions based on recent media coverage.</p>\n<hr>\n"
        (by decide)]

/-- Claim C9: with past call timestamps in chronological order and the
clock at `now`: if fewer than
`max_requests` recorded timestamps lie inside the sliding 60-second window,
the call proceeds immediately with no sleep; if the window is full, the
caller sleeps exactly `60 - (now - oldest) + 1` seconds — a positive amount
bounded by 61, hence finite, never indefinite — after which the oldest
in-window timestamp (the head, which is minimal by sortedness) has left the
window, and the call then proceeds by recording its own timestamp. -/
theorem claim_C9_rate_limiter_window (m : Nat) (now : Rat) (requests : List Rat)
    (hsort : requests.Sorted (· ≤ ·))
    (hpast : ∀ u ∈ requests, u ≤ now) :
    ((requests.filter (fun u => decide (now - u < 60))).length < m →
      RateLimiter.waitIfNeeded m now requests
        = some (0, now, requests.filter (fun u => decide (now - u < 60)) ++ [now])) ∧
    (∀ oldest tl, requests.filter (fun u => decide (now - u < 60)) = oldest :: tl →
      m ≤ (requests.filter (fun u => decide (now - u < 60))).length →
      RateLimiter.waitIfNeeded m now requests
        = some (60 - (now - oldest) + 1, now + (60 - (now - oldest) + 1),
            ((oldest :: tl).filter
              (fun u => decide (now + (60 - (now - oldest) + 1) - u < 60))) ++
              [now + (60 - (now - oldest) + 1)]) ∧
      0 < 60 - (now - oldest) + 1 ∧
      60 - (now - oldest) + 1 ≤ 61 ∧
      60 ≤ now + (60 - (now - oldest) + 1) - oldest ∧
      (∀ u ∈ oldest :: tl, oldest ≤ u)) := by
  constructor
  · intro hlt
    unfold RateLimiter.waitIfNeeded
    rw [if_neg (by omega)]
  · intro oldest tl hfilter hge
    have hmem : oldest ∈ requests.filter (fun u => decide (now - u < 60)) := by
      rw [hfilter]
      exact List.mem_cons_self oldest tl
    have hwin : now - oldest < 60 := by
      have hdec := List.of_mem_filter hmem
      simpa using hdec
    have hpastold : oldest ≤ now := hpast oldest (List.mem_of_mem_filter hmem)
    have hpos : 0 < 60 - (now - oldest) + 1 := by linarith
    refine ⟨?_, hpos, by linarith, by linarith, ?_⟩
    · unfold RateLimiter.waitIfNeeded
      rw [hfilter] at hge ⊢
      rw [if_pos hge]
      dsimp only
      rw [if_pos hpos]
    · intro u hu
      rcases List.mem_cons.mp hu with h | h
      · exact le_of_eq h.symm
      · have hs : (requests.filter (fun u => decide (now - u < 60))).Sorted (· ≤ ·) :=
          hsort.filter _
        rw [hfilter] at hs
        exact (List.sorted_cons.mp hs).1 u h

/-- Witness for C9: with a limit of 2 calls per minute and two calls already
recorded at time 0, a third immediate call sleeps 61 seconds, after which
the first timestamps have left the window and the call proceeds. -/
theorem claim_C9_rate_limiter_window_witness :
    RateLimiter.waitIfNeeded 2 0 [0, 0] = some (61, 61, [61]) ∧
    (0 : Rat) < 61 ∧ (61 : Rat) ≤ 61 := by
  have h := (claim_C9_rate_limiter_window 2 0 [0, 0]
    (by simp [List.sorted_cons]) (by intro u hu; simp at hu; simp [hu])).2
    0 [0] (by norm_num [List.filter]) (by norm_num [List.filter])
  refine ⟨?_, by norm_num, le_refl 61⟩
  have heq := h.1
  norm_num [List.filter] at heq
  convert heq using 2

/-- Claim C5: each extraction attempt runs the primary extractor first and
the fallback only when the primary yields no result, first success wins; a
primary result with body text under 50 characters counts as a failure and
falls through to the fallback; if both stages fail the extraction fails
with the no-content-extracted error; persistent timeouts and 5xx errors are
retried up to the configured maximum (3 by default) with a delay between
attempts, a timeout followed by a successful attempt recovers, and 4xx
client errors are never retried. -/
theorem claim_C5_two_stage_retry
    (oracles : Nat → ExtractorOutcome × ExtractorOutcome) (maxR : Nat)
    (hR : 1 ≤ maxR) :
    (∀ c, (oracles 0).1 = ExtractorOutcome.found c → 50 ≤ c.text.length →
      ScrapingService.scrapeArticle oracles maxR
        = { success := true, title := c.title, text := c.text, error := none,
            attempts := 1, sleeps := 0, usedFallback := false }) ∧
    (∀ c c2, (oracles 0).1 = ExtractorOutcome.found c → c.text.length < 50 →
      (oracles 0).2 = ExtractorOutcome.found c2 →
      ScrapingService.scrapeArticle oracles maxR
        = { success := true, title := c2.title, text := c2.text, error := none,
            attempts := 1, sleeps := 0, usedFallback := true }) ∧
    (extractWithNewspaper (oracles 0).1 = ExtractorOutcome.nothing →
      (oracles 0).2 = ExtractorOutcome.nothing →
      (ScrapingService.scrapeArticle oracles maxR).success = false ∧
      (ScrapingService.scrapeArticle oracles maxR).error
        = some "No content could be extracted") ∧
    ((∀ i, i < maxR → (oracles i).1 = ExtractorOutcome.timeout) →
      (ScrapingService.scrapeArticle oracles maxR).success = false ∧
      (ScrapingService.scrapeArticle oracles maxR).attempts = maxR ∧
      (ScrapingService.scrapeArticle oracles maxR).sleeps = maxR - 1 ∧
      (ScrapingService.scrapeArticle oracles maxR).error
        = some ("Request timeout after " ++ toString maxR ++ " attempts")) ∧
    (∀ s, 400 ≤ s → s < 500 → (oracles 0).1 = ExtractorOutcome.httpError s →
      ScrapingService.scrapeArticle oracles maxR
        = { success := false, title := "", text := "",
            error := some ("HTTP error: " ++ toString s),
            attempts := 1, sleeps := 0, usedFallback := false }) ∧
    (∀ s, 500 ≤ s → (∀ i, i < maxR → (oracles i).1 = ExtractorOutcome.httpError s) →
      (ScrapingService.scrapeArticle oracles maxR).success = false ∧
      (ScrapingService.scrapeArticle oracles maxR).attempts = maxR) ∧
    (∀ c, 2 ≤ maxR → (oracles 0).1 = ExtractorOutcome.timeout →
      (oracles 1).1 = ExtractorOutcome.found c → 50 ≤ c.text.length →
      (ScrapingService.scrapeArticle oracles maxR).success = true ∧
      (ScrapingService.scrapeArticle oracles maxR).attempts = 2 ∧
      (ScrapingService.scrapeArticle oracles maxR).sleeps = 1 ∧
      (ScrapingService.scrapeArticle oracles maxR).text = c.text) ∧
    Settings.SCRAPING_MAX_RETRIES none = 3 := by
  refine ⟨?_, ?_, ?_, ?_, ?_, ?_, ?_, by decide⟩
  · intro c h1 h2
    obtain ⟨m, rfl⟩ : ∃ m, maxR = m + 1 := ⟨maxR - 1, by omega⟩
    simp [ScrapingService.scrapeArticle, scrapeAux, attemptExtract,
      extractWithNewspaper, h1, Nat.not_lt.mpr h2]
  · intro c c2 h1 h2 h3
    obtain ⟨m, rfl⟩ : ∃ m, maxR = m + 1 := ⟨maxR - 1, by omega⟩
    simp [ScrapingService.scrapeArticle, scrapeAux, attemptExtract,
      extractWithNewspaper, h1, h2, h3]
  · intro h1 h2
    obtain ⟨m, rfl⟩ : ∃ m, maxR = m + 1 := ⟨maxR - 1, by omega⟩
    simp [ScrapingService.scrapeArticle, scrapeAux, attemptExtract, h1, h2]
  · intro hall
    have h := scrapeAux_timeout_all oracles maxR maxR 0 hR
      (fun j hj => by simpa using hall j hj)
    exact ⟨h.1, h.2.1, h.2.2.1, h.2.2.2⟩
  · intro s h4a h4b h1
    obtain ⟨m, rfl⟩ : ∃ m, maxR = m + 1 := ⟨maxR - 1, by omega⟩
    have hcli : 400 ≤ s ∧ s < 500 := ⟨h4a, h4b⟩
    simp [ScrapingService.scrapeArticle, scrapeAux, attemptExtract,
      extractWithNewspaper, h1, hcli]
  · intro s hs hall
    have h := scrapeAux_http5xx_all oracles maxR s hs maxR 0 hR
      (fun j hj => by simpa using hall j hj)
    exact ⟨h.1, h.2⟩
  · intro c h2R h0 h1 hlen
    obtain ⟨k, rfl⟩ : ∃ k, maxR = k + 2 := ⟨maxR - 2, by omega⟩
    simp [ScrapingService.scrapeArticle, scrapeAux, attemptExtract,
      extractWithNewspaper, h0, h1, Nat.not_lt.mpr hlen]

/-- Witness for C5: an article body longer than fifty characters extracted
by the primary strategy on the first attempt succeeds with no fallback, no
retry, and no sleep. -/
theorem claim_C5_two_stage_retry_witness :
    ScrapingService.scrapeArticle
        (fun _ => (ExtractorOutcome.found
          ⟨"Title", "This body text is certainly longer than fifty characters.", [], none⟩,
          ExtractorOutcome.nothing)) 3
      = { success := true, title := "Title",
          text := "This body text is certainly longer than fifty characters.",
          error := none, attempts := 1, sleeps := 0, usedFallback := false } :=
  (claim_C5_two_stage_retry
    (fun _ => (ExtractorOutcome.found
      ⟨"Title", "This body text is certainly longer than fifty characters.", [], none⟩,
      ExtractorOutcome.nothing)) 3 (by omega)).1
    ⟨"Title", "This body text is certainly longer than fifty characters.", [], none⟩
    rfl (by decide)

end MediaMonitoring
